import Mathlib

/-!
Verification development for the regulations-to-IDS formalization pipeline.

The Python domain model (`src/entities.py`) consists of pydantic models and
closed `str`-`Enum`s; pydantic construction validates field presence and enum
membership and `GraphRequirement.model_post_init` normalizes the `domain`
field of the attached `ExternalReference`s.  We embed each model as a Lean
structure and each pydantic constructor as a function from optional raw
inputs to `Option` of the model, `none` meaning a validation rejection.
The enum embeddings carry their Python string values (`value`) and the
value-based parser pydantic uses (`ofString`).
-/

namespace Regs

/-- Embeds `Source` (src/entities.py): a plain dataclass, no validation. -/
structure Source where
  paragraph : String
  document : String
  chapter : String
deriving DecidableEq

/-- Embeds the closed enum `Entity` (src/entities.py). -/
inductive Entity where
  | SUBJECT
  | OBJECT
deriving DecidableEq

/-- Python string value of each `Entity` member. -/
def Entity.value : Entity → String
  | .SUBJECT => "subject_entity"
  | .OBJECT => "object_entity"

/-- Value-based parsing of `Entity`, as pydantic performs for a `str` enum:
an input string is accepted iff it is the value of some member. -/
def Entity.ofString (s : String) : Option Entity :=
  if s = "subject_entity" then some .SUBJECT
  else if s = "object_entity" then some .OBJECT
  else none

/-- Embeds the closed enum `Operator` (src/entities.py). -/
inductive Operator where
  | EQUAL
  | NOT_EQUAL
  | GREATER_THAN
  | GREATER_EQUAL
  | LESS_THAN
  | LESS_EQUAL
  | BELONGS_TO
deriving DecidableEq

/-- Python string value of each `Operator` member. -/
def Operator.value : Operator → String
  | .EQUAL => "=="
  | .NOT_EQUAL => "!="
  | .GREATER_THAN => ">"
  | .GREATER_EQUAL => ">="
  | .LESS_THAN => "<"
  | .LESS_EQUAL => "<="
  | .BELONGS_TO => "∈"

/-- Value-based parsing of `Operator`: pydantic accepts exactly the listed
values and rejects anything else (no coercion). -/
def Operator.ofString (s : String) : Option Operator :=
  if s = "==" then some .EQUAL
  else if s = "!=" then some .NOT_EQUAL
  else if s = ">" then some .GREATER_THAN
  else if s = ">=" then some .GREATER_EQUAL
  else if s = "<" then some .LESS_THAN
  else if s = "<=" then some .LESS_EQUAL
  else if s = "∈" then some .BELONGS_TO
  else none

/-- Embeds the closed enum `StatementType` (src/entities.py). -/
inductive StatementType where
  | REQUIREMENT
  | ASSUMPTION
deriving DecidableEq

/-- Python string value of each `StatementType` member. -/
def StatementType.value : StatementType → String
  | .REQUIREMENT => "requirement"
  | .ASSUMPTION => "assumption"

/-- Value-based parsing of `StatementType`. -/
def StatementType.ofString (s : String) : Option StatementType :=
  if s = "requirement" then some .REQUIREMENT
  else if s = "assumption" then some .ASSUMPTION
  else none

/-- Embeds the closed enum `QueryType` (src/entities.py). -/
inductive QueryType where
  | DUPLICATE
  | CONTRADICTION
  | QUESTION
  | OTHER
deriving DecidableEq

/-- Python string value of each `QueryType` member. -/
def QueryType.value : QueryType → String
  | .DUPLICATE => "Дубликат"
  | .CONTRADICTION => "Противоречие"
  | .QUESTION => "Вопрос"
  | .OTHER => "Остальное"

/-- Value-based parsing of `QueryType`. -/
def QueryType.ofString (s : String) : Option QueryType :=
  if s = "Дубликат" then some .DUPLICATE
  else if s = "Противоречие" then some .CONTRADICTION
  else if s = "Вопрос" then some .QUESTION
  else if s = "Остальное" then some .OTHER
  else none

/-- Embeds `Applicability` (src/entities.py): all four fields are declared
without `Optional` and without defaults, hence required and non-nullable. -/
structure Applicability where
  entity : Entity
  property : String
  operator : Operator
  value : String
deriving DecidableEq

/-- Pydantic construction of the domain-model `Applicability` from raw
optional inputs (`none` = field absent or null).  Every field is required;
`entity` and `operator` are additionally validated against their enums. -/
def mkApplicability (entity property oper value : Option String) :
    Option Applicability :=
  match entity.bind Entity.ofString, property, oper.bind Operator.ofString, value with
  | some e, some p, some o, some v => some ⟨e, p, o, v⟩
  | _, _, _, _ => none

/-- Embeds `Statement` (src/entities.py): all four fields required. -/
structure Statement where
  property : String
  operator : Operator
  value : String
  type : StatementType
deriving DecidableEq

/-- Pydantic construction of the domain-model `Statement` from raw optional
inputs; all fields required, `operator` and `type` validated against enums. -/
def mkStatement (property oper value type : Option String) : Option Statement :=
  match property, oper.bind Operator.ofString, value, type.bind StatementType.ofString with
  | some p, some o, some v, some t => some ⟨p, o, v, t⟩
  | _, _, _, _ => none

/-- Embeds `ExternalReference` (src/entities.py): `document` required,
`domain : Optional[str] = Field(default=None)`. -/
structure ExternalReference where
  document : String
  domain : Option String
deriving DecidableEq

/-- Constructing an `ExternalReference` with both fields given. -/
def mkExternalReference (document : String) (domain : Option String) :
    ExternalReference :=
  ⟨document, domain⟩

/-- Constructing an `ExternalReference` with the `domain` field omitted:
pydantic fills in the declared default, which is `None`. -/
def mkExternalReferenceDefault (document : String) : ExternalReference :=
  ⟨document, none⟩

/-- Embeds `GraphRequirement` (src/entities.py). -/
structure GraphRequirement where
  req_text : String
  object_entity : String
  subject_entity : String
  relation : String
  applicability : List Applicability
  statement : Statement
  external_refs : List ExternalReference
  source : Source
deriving DecidableEq

/-- The per-reference effect of `GraphRequirement.model_post_init`
(src/entities.py lines 86-89): a `None` domain becomes `""`; a string
domain is left unchanged. -/
def normalizeRef (r : ExternalReference) : ExternalReference :=
  ⟨r.document, some (r.domain.getD "")⟩

/-- Pydantic construction of `GraphRequirement`: the fields are stored as
given, then `model_post_init` rewrites each `None` domain among
`external_refs` to `""`.  No other validation is declared on the model. -/
def mkGraphRequirement (req_text object_entity subject_entity relation : String)
    (applicability : List Applicability) (statement : Statement)
    (external_refs : List ExternalReference) (source : Source) :
    GraphRequirement :=
  ⟨req_text, object_entity, subject_entity, relation, applicability, statement,
    external_refs.map normalizeRef, source⟩

/-- Embeds `Requirement` (src/prompts/requirements_extractor.py). -/
structure Requirement where
  text : String
deriving DecidableEq

/-- Embeds `ExtractedRequirements` (src/prompts/requirements_extractor.py):
`reqs` is required but nullable, `paragraph` is nullable with default
`None`; no validator couples the two fields. -/
structure ExtractedRequirements where
  reqs : Option (List Requirement)
  paragraph : Option String
deriving DecidableEq

/-- Pydantic construction of `ExtractedRequirements` with both fields given:
a plain field-by-field store, no cross-field validation. -/
def mkExtractedRequirements (reqs : Option (List Requirement))
    (paragraph : Option String) : ExtractedRequirements :=
  ⟨reqs, paragraph⟩

/-- Pydantic construction of `ExtractedRequirements` with `paragraph`
omitted: the declared default `None` is stored. -/
def mkExtractedRequirementsDefault (reqs : Option (List Requirement)) :
    ExtractedRequirements :=
  ⟨reqs, none⟩

/-- Embeds the Query Structurer's local `Applicability`
(src/prompts/query_structurator.py): unlike the domain-model class, its
`operator` and `value` are `Optional`, i.e. nullable. -/
structure QueryApplicability where
  entity : Entity
  property : String
  operator : Option Operator
  value : Option String
deriving DecidableEq

/-- Pydantic construction of the query-side `Applicability`: `entity` and
`property` are required and non-nullable, `operator` may be null (a non-null
operator is validated against the enum), `value` may be null. -/
def mkQueryApplicability (entity property : Option String)
    (oper : Option String) (value : Option String) : Option QueryApplicability :=
  match entity.bind Entity.ofString, property with
  | some e, some p =>
    match oper with
    | none => some ⟨e, p, none, value⟩
    | some o =>
      match Operator.ofString o with
      | some o2 => some ⟨e, p, some o2, value⟩
      | none => none
  | _, _ => none

/-- Embeds the Query Structurer's local `Statement`
(src/prompts/query_structurator.py): every field nullable. -/
structure QStatement where
  property : Option String
  operator : Option Operator
  value : Option String
  type : Option StatementType
deriving DecidableEq

/-- Embeds `PartiallySpecifiedRequirement`
(src/prompts/query_structurator.py): `object_entity` and `statement` are
required and non-nullable; `subject_entity`, `relation` and `applicability`
are nullable.  No validator couples `relation` to `subject_entity`. -/
structure PartiallySpecifiedRequirement where
  object_entity : String
  subject_entity : Option String
  relation : Option String
  applicability : Option (List QueryApplicability)
  statement : QStatement
deriving DecidableEq

/-- Pydantic construction of `PartiallySpecifiedRequirement`: rejects a
missing/null `object_entity` or `statement`, stores everything else as
given. -/
def mkPartiallySpecifiedRequirement (object_entity : Option String)
    (subject_entity relation : Option String)
    (applicability : Option (List QueryApplicability))
    (statement : Option QStatement) :
    Option PartiallySpecifiedRequirement :=
  match object_entity, statement with
  | some oe, some st => some ⟨oe, subject_entity, relation, applicability, st⟩
  | _, _ => none

/-- The Python string values of the `Operator` enum (the closed set). -/
def operatorValues : List String := ["==", "!=", ">", ">=", "<", "<=", "∈"]

/-- The Python string values of the `Entity` enum. -/
def entityValues : List String := ["subject_entity", "object_entity"]

/-- The Python string values of the `StatementType` enum. -/
def statementTypeValues : List String := ["requirement", "assumption"]

/-- The Python string values of the `QueryType` enum. -/
def queryTypeValues : List String := ["Дубликат", "Противоречие", "Вопрос", "Остальное"]

/-- A concrete `Statement` used in closed instances. -/
def stEx : Statement := ⟨"area", .GREATER_EQUAL, "15 m2", .REQUIREMENT⟩

/-- A concrete `Source` used in closed instances. -/
def srcEx : Source := ⟨"6.6.2", "SP 251.1325800.2016", "4"⟩

/-- A concrete query-side `Statement` used in closed instances. -/
def qstEx : QStatement :=
  ⟨some "width", some .GREATER_EQUAL, some "4.0 m", some .REQUIREMENT⟩

/-- Whether `pat` occurs somewhere in a character list. -/
def hasSub (pat : List Char) : List Char → Bool
  | [] => pat.isEmpty
  | x :: rest => pat.isPrefixOf (x :: rest) || hasSub pat rest

/-- Substring occurrence test used by the query-classification model. -/
def strContains (s pat : String) : Bool := hasSub pat.toList s.toList

/-- Whether any of the given vocabulary words occurs in the query text. -/
def containsAny (s : String) (pats : List String) : Bool :=
  pats.any (fun p => strContains s p)

/-- Whether the query text contains a question mark. -/
def hasQuestionMark (s : String) : Bool := s.toList.contains '?'

/-- Contradiction vocabulary listed by `QUERY_SYS_PROMPT`
(src/prompts/query_handler.py rule 1). -/
def contradictionVocab : List String :=
  ["contradiction", "inconsistency", "discrepancy"]

/-- Duplicate vocabulary listed by `QUERY_SYS_PROMPT`
(src/prompts/query_handler.py rule 1). -/
def duplicateVocab : List String := ["duplicate", "repeat", "copy"]

/-- Modelled from the spec: the Query Interpreter's classification step is
performed by the external reasoning capability under `QUERY_SYS_PROMPT`
(src/prompts/query_handler.py); no Python implementation of it exists in
the repository.  Fixed first-match-wins order: QUESTION whenever a question
mark is present regardless of content, else CONTRADICTION on contradiction
vocabulary, else DUPLICATE on duplicate vocabulary, else OTHER. -/
def classifyQuery (q : String) : QueryType :=
  if hasQuestionMark q then .QUESTION
  else if containsAny q contradictionVocab then .CONTRADICTION
  else if containsAny q duplicateVocab then .DUPLICATE
  else .OTHER

/-- One pass of Python `str.replace(p, "")` for a two-character pattern
whose characters both equal `c`: scan left to right, delete each leftmost
occurrence, continue after it. -/
def stripPair (c : Char) : List Char → List Char
  | x :: y :: rest =>
    if x = c ∧ y = c then stripPair c rest
    else x :: stripPair c (y :: rest)
  | l => l

/-- The documented round-trip strip on `FormattedRequirement`
(src/prompts/requirements_formatter.py):
`formatted_text.replace("$$", "").replace("&&", "")`. -/
def stripMarkers (s : String) : String :=
  ⟨stripPair '&' (stripPair '$' s.toList)⟩

/-- Modelled from the spec: a fragment of a Formatter output.  The
Formatter itself is the external reasoning capability under
`FORMATTED_REQ_SYS_PROMPT` (src/prompts/requirements_formatter.py); per its
strict rules 1-3 the output is the original text with non-nested `&&...&&`
entity spans and `$$...$$` statement spans inserted and nothing else
changed, which we model as a list of plain/entity/statement fragments. -/
inductive Frag where
  | plain (s : String)
  | entitySpan (s : String)
  | stmtSpan (s : String)
deriving DecidableEq

/-- The underlying text of a fragment. -/
def Frag.text : Frag → String
  | .plain s => s
  | .entitySpan s => s
  | .stmtSpan s => s

/-- The characters a fragment contributes to `formatted_text`. -/
def Frag.renderChars : Frag → List Char
  | .plain s => s.toList
  | .entitySpan s => '&' :: '&' :: (s.toList ++ ['&', '&'])
  | .stmtSpan s => '$' :: '$' :: (s.toList ++ ['$', '$'])

/-- The characters of a whole `formatted_text`. -/
def renderChars : List Frag → List Char
  | [] => []
  | f :: fs => f.renderChars ++ renderChars fs

/-- A Formatter output (`formatted_text`) as a string. -/
def formatText (fs : List Frag) : String := ⟨renderChars fs⟩

/-- The characters a fragment contributes after the `$$` pass: statement
markers removed, entity markers still present. -/
def Frag.ampChars : Frag → List Char
  | .plain s => s.toList
  | .entitySpan s => '&' :: '&' :: (s.toList ++ ['&', '&'])
  | .stmtSpan s => s.toList

/-- The characters of a `formatted_text` after the `$$` pass. -/
def ampChars : List Frag → List Char
  | [] => []
  | f :: fs => f.ampChars ++ ampChars fs

/-- The characters of the original text: fragments without any markers. -/
def originalChars : List Frag → List Char
  | [] => []
  | f :: fs => f.text.toList ++ originalChars fs

/-- The original requirement text of a Formatter output. -/
def originalText (fs : List Frag) : String := ⟨originalChars fs⟩

/-- A fragment's text contains neither marker character, as ordinary
regulatory prose does. -/
def Frag.markerFree (f : Frag) : Prop :=
  '$' ∉ f.text.toList ∧ '&' ∉ f.text.toList

instance (f : Frag) : Decidable f.markerFree :=
  inferInstanceAs (Decidable (_ ∧ _))

/-- Concrete Formatter output for the round-trip example in the spec. -/
def fragsEx : List Frag :=
  [.stmtSpan "Ceiling height", .plain " ", .stmtSpan "must be at least",
    .plain " 2.7 m"]

/-- Number of positions at which `pat` occurs in a character list. -/
def countSub (pat : List Char) : List Char → Nat
  | [] => 0
  | x :: rest =>
    cond (pat.isPrefixOf (x :: rest)) (countSub pat rest + 1) (countSub pat rest)

/-- The opening tag of an IDS info block. -/
def infoChars : List Char := '<' :: "ids:info>".toList

/-- The opening tag of an IDS specification element (with its attribute
separator, which distinguishes it from `<ids:specifications>`). -/
def specChars : List Char := '<' :: "ids:specification ".toList

/-- Template: document head up to the info title text. -/
def T0 : String :=
  "<ids:ids xmlns:ids=\"http://standards.buildingsmart.org/IDS\"><ids:info><ids:title>"

/-- Template: close the info block, open the single specification and its
applicability entity name. -/
def T1 : String :=
  "</ids:title></ids:info><ids:specifications><ids:specification ifcVersion=\"IFC4\"><ids:applicability><ids:entity><ids:name><ids:simpleValue>"

/-- Template: close the entity facet of the applicability block. -/
def T2 : String := "</ids:simpleValue></ids:name></ids:entity>"

/-- Template: close applicability, open requirements with cardinality. -/
def T3 : String := "</ids:applicability><ids:requirements cardinality=\""

/-- Template: open the requirement property and its base name. -/
def T4 : String := "\"><ids:property><ids:baseName><ids:simpleValue>"

/-- Template: close the base name, open the requirement value. -/
def T5 : String := "</ids:simpleValue></ids:baseName><ids:value>"

/-- Template: close every open element of the document. -/
def T6 : String :=
  "</ids:value></ids:property></ids:requirements></ids:specification></ids:specifications></ids:ids>"

/-- Template: open one applicability property predicate. -/
def A0 : String := "<ids:property onEntity=\""

/-- Template: applicability predicate, between entity role and name. -/
def A1 : String := "\"><ids:baseName><ids:simpleValue>"

/-- Template: applicability predicate, between name and value. -/
def A2 : String :=
  "</ids:simpleValue></ids:baseName><ids:value><ids:simpleValue>"

/-- Template: close one applicability property predicate. -/
def A3 : String := "</ids:simpleValue></ids:value></ids:property>"

/-- One applicability entry as an applicability-scoped predicate. -/
def renderApplicability (a : Applicability) : String :=
  A0 ++ a.entity.value ++ A1 ++ a.property ++ A2 ++ a.value ++ A3

/-- All applicability entries, in order. -/
def renderApplicabilityList : List Applicability → String
  | [] => ""
  | a :: as => renderApplicability a ++ renderApplicabilityList as

/-- Template: open an exclusive lower-bound restriction. -/
def RH_GT : String :=
  "<xs:restriction base=\"xs:double\"><xs:minExclusive value=\""

/-- Template: open an inclusive lower-bound restriction. -/
def RH_GE : String :=
  "<xs:restriction base=\"xs:double\"><xs:minInclusive value=\""

/-- Template: open an exclusive upper-bound restriction. -/
def RH_LT : String :=
  "<xs:restriction base=\"xs:double\"><xs:maxExclusive value=\""

/-- Template: open an inclusive upper-bound restriction. -/
def RH_LE : String :=
  "<xs:restriction base=\"xs:double\"><xs:maxInclusive value=\""

/-- Template: close a bound restriction. -/
def RT_R : String := "\"/></xs:restriction>"

/-- Template: open a direct value assertion. -/
def SV0 : String := "<ids:simpleValue>"

/-- Template: close a direct value assertion. -/
def SV1 : String := "</ids:simpleValue>"

/-- The statement constraint: a range construct for the open/closed bound
operators, a direct value assertion for equality/inequality/membership
(spec 4.4; prompt rule 3 of src/prompts/ids_structurator.py). -/
def renderOpValue : Operator → String → String
  | .GREATER_THAN, v => RH_GT ++ v ++ RT_R
  | .GREATER_EQUAL, v => RH_GE ++ v ++ RT_R
  | .LESS_THAN, v => RH_LT ++ v ++ RT_R
  | .LESS_EQUAL, v => RH_LE ++ v ++ RT_R
  | .EQUAL, v => SV0 ++ v ++ SV1
  | .NOT_EQUAL, v => SV0 ++ v ++ SV1
  | .BELONGS_TO, v => SV0 ++ v ++ SV1

/-- Cardinality is REQUIRED for a mandatory statement, OPTIONAL for an
assumption (spec 4.4). -/
def cardinalityAttr : StatementType → String
  | .REQUIREMENT => "required"
  | .ASSUMPTION => "optional"

/-- Modelled from the spec: the Interchange Serializer is the external
reasoning capability under `IDS_SYS_PROMPT`
(src/prompts/ids_structurator.py); no Python implementation of it exists in
the repository.  `vocab` stands for the IFC target-vocabulary mapping
(prompt rules 4 and 7): when the object entity or the statement property
has no valid mapping, the serializer returns the empty string; otherwise it
returns one document with one info block and a single specification. -/
def serializeIDS (vocab : String → Option String) (gr : GraphRequirement) :
    String :=
  match vocab gr.object_entity, vocab gr.statement.property with
  | some cls, some prop =>
    T0 ++ gr.req_text ++ T1 ++ cls ++ T2 ++
      renderApplicabilityList gr.applicability ++ T3 ++
      cardinalityAttr gr.statement.type ++ T4 ++ prop ++ T5 ++
      renderOpValue gr.statement.operator gr.statement.value ++ T6
  | _, _ => ""

/-- A character list contributes no occurrence of `pat` and no partial
occurrence across its right boundary, wherever it is placed. -/
def Passes (pat s : List Char) : Prop :=
  ∀ b, countSub pat (s ++ b) = countSub pat b

/-- A character list contributes exactly one occurrence of `pat` and no
partial occurrence across its right boundary, wherever it is placed. -/
def PassesOne (pat s : List Char) : Prop :=
  ∀ b, countSub pat (s ++ b) = countSub pat b + 1

/-- Concrete vocabulary mapping used in closed instances. -/
def vocabEx : String → Option String :=
  fun s =>
    if s = "window" then some "IfcWindow"
    else if s = "presence" then some "IsExternal"
    else none

/-- Concrete `GraphRequirement` used in closed serializer instances. -/
def grEx : GraphRequirement :=
  mkGraphRequirement "Stairwells must have windows" "window" "stairwell"
    "contains" [⟨.SUBJECT, "building type", .EQUAL, "apartment building"⟩]
    ⟨"presence", .EQUAL, "yes", .REQUIREMENT⟩ [] srcEx

/-- Concrete unmappable `GraphRequirement` used in closed instances. -/
def grExBad : GraphRequirement :=
  mkGraphRequirement "t" "unmapped entity" "s" "is" []
    ⟨"p", .EQUAL, "v", .REQUIREMENT⟩ [] srcEx

/-- Claim C2 (counterexample): an `ExternalReference` constructed with
`domain` omitted has `domain = None` right after its own construction, not
the empty string — the declared pydantic default is `None` and
`ExternalReference` has no post-init hook. -/
theorem C2_counterexample :
    (mkExternalReferenceDefault "SP 42.13330.2016").domain = none ∧
    (mkExternalReferenceDefault "SP 42.13330.2016").domain ≠ some "" :=
  ⟨rfl, by decide⟩

/-- Claim C2 (amended): an `ExternalReference` constructed with `domain`
omitted carries `domain = None`; the absent-to-`""` normalization happens at
construction of the enclosing `GraphRequirement`, whose `model_post_init`
rewrites each `None` domain among `external_refs` to `""` and afterwards no
domain is left unset. -/
theorem C2_amended (rt oe se rel : String) (apps : List Applicability)
    (st : Statement) (refs : List ExternalReference) (src : Source) (d : String) :
    (mkExternalReferenceDefault d).domain = none ∧
    (mkGraphRequirement rt oe se rel apps st refs src).external_refs
      = refs.map normalizeRef ∧
    normalizeRef (mkExternalReferenceDefault d) = ⟨d, some ""⟩ ∧
    ((mkGraphRequirement rt oe se rel apps st refs src).external_refs.all
      fun r => r.domain.isSome) = true := by
  refine ⟨rfl, rfl, rfl, ?_⟩
  simp only [mkGraphRequirement, List.all_eq_true, List.mem_map]
  rintro r ⟨a, _, rfl⟩
  simp [normalizeRef]

/-- Claim C3 (counterexample): a `GraphRequirement` with
`subject_entity == object_entity` and `relation ≠ "is"` is constructible —
no validator on the model enforces the identity-relation invariant. -/
theorem C3_counterexample :
    (mkGraphRequirement "Classrooms must contain desks" "classroom" "classroom"
        "contains" [] stEx [] srcEx).subject_entity =
      (mkGraphRequirement "Classrooms must contain desks" "classroom" "classroom"
        "contains" [] stEx [] srcEx).object_entity ∧
    (mkGraphRequirement "Classrooms must contain desks" "classroom" "classroom"
        "contains" [] stEx [] srcEx).relation ≠ "is" :=
  ⟨rfl, by decide⟩

/-- Claim C3 (amended): construction of a `GraphRequirement` preserves
`subject_entity`, `object_entity` and `relation` unchanged, so the invariant
`subject_entity == object_entity → relation == "is"` holds for a constructed
value exactly when the supplied fields satisfy it; it is prescribed by the
Structurer's output-schema description, not enforced at construction. -/
theorem C3_amended (rt oe se rel : String) (apps : List Applicability)
    (st : Statement) (refs : List ExternalReference) (src : Source)
    (h : se = oe → rel = "is") :
    (mkGraphRequirement rt oe se rel apps st refs src).subject_entity =
      (mkGraphRequirement rt oe se rel apps st refs src).object_entity →
    (mkGraphRequirement rt oe se rel apps st refs src).relation = "is" := h

/-- Witness for `C3_amended` at a concrete input. -/
theorem C3_amended_witness :
    (mkGraphRequirement "t" "room" "room" "is" [] stEx [] srcEx).relation = "is" :=
  C3_amended "t" "room" "room" "is" [] stEx [] srcEx (fun _ => rfl) rfl

/-- Claim C4 (counterexample): in the shared domain-model `Applicability`
(src/entities.py), `operator` and `value` are required — construction with
either of them absent fails validation. -/
theorem C4_counterexample :
    mkApplicability (some "object_entity") (some "area") none (some "15 m2")
      = none ∧
    mkApplicability (some "object_entity") (some "area") (some ">=") none
      = none :=
  ⟨rfl, rfl⟩

/-- Claim C4 (amended): only the Query Structurer's pipeline-local
`Applicability` (src/prompts/query_structurator.py) admits a null `operator`
and a null `value`; the shared domain-model `Applicability`
(src/entities.py) requires both and rejects their absence. -/
theorem C4_amended (p : String) (v : Option String) :
    mkQueryApplicability (some "object_entity") (some p) none v
      = some ⟨.OBJECT, p, none, v⟩ ∧
    mkQueryApplicability (some "subject_entity") (some p) none v
      = some ⟨.SUBJECT, p, none, v⟩ ∧
    (∀ e pr v2, mkApplicability e pr none v2 = none) ∧
    (∀ e pr o, mkApplicability e pr o none = none) := by
  refine ⟨rfl, rfl, ?_, ?_⟩
  · intro e pr v2
    cases he : e.bind Entity.ofString <;> cases pr <;> cases v2 <;>
      simp [mkApplicability, he]
  · intro e pr o
    cases he : e.bind Entity.ofString <;> cases pr <;>
      cases ho : o.bind Operator.ofString <;> simp [mkApplicability, he, ho]

/-- Claim C5: the enumerations are closed sets.  A string outside the
`Operator` value set makes `Applicability` and `Statement` construction fail
validation (`none`), never coerce; `Entity`, `StatementType` and `QueryType`
likewise reject every string outside their value sets; and a successful
`Operator` parse returns exactly the member whose value is the input, so no
silent coercion to some in-set value can occur. -/
theorem C5_closed_enums (s : String) :
    (s ∉ operatorValues →
      Operator.ofString s = none ∧
      (∀ e p v, mkApplicability e p (some s) v = none) ∧
      (∀ p v t, mkStatement p (some s) v t = none)) ∧
    (s ∉ entityValues → Entity.ofString s = none) ∧
    (s ∉ statementTypeValues → StatementType.ofString s = none) ∧
    (s ∉ queryTypeValues → QueryType.ofString s = none) ∧
    (∀ o : Operator, Operator.ofString s = some o → o.value = s) := by
  refine ⟨?_, ?_, ?_, ?_, ?_⟩
  · intro h
    simp only [operatorValues, List.mem_cons, List.not_mem_nil, or_false,
      not_or] at h
    obtain ⟨h1, h2, h3, h4, h5, h6, h7⟩ := h
    have hnone : Operator.ofString s = none := by
      simp [Operator.ofString, h1, h2, h3, h4, h5, h6, h7]
    refine ⟨hnone, ?_, ?_⟩
    · intro e p v
      have hb : (some s).bind Operator.ofString = none := by simp [hnone]
      cases he : e.bind Entity.ofString <;> cases p <;> cases v <;>
        simp [mkApplicability, he, hb]
    · intro p v t
      have hb : (some s).bind Operator.ofString = none := by simp [hnone]
      cases p <;> cases v <;> cases ht : t.bind StatementType.ofString <;>
        simp [mkStatement, ht, hb]
  · intro h
    simp only [entityValues, List.mem_cons, List.not_mem_nil, or_false,
      not_or] at h
    simp [Entity.ofString, h.1, h.2]
  · intro h
    simp only [statementTypeValues, List.mem_cons, List.not_mem_nil, or_false,
      not_or] at h
    simp [StatementType.ofString, h.1, h.2]
  · intro h
    simp only [queryTypeValues, List.mem_cons, List.not_mem_nil, or_false,
      not_or] at h
    obtain ⟨h1, h2, h3, h4⟩ := h
    simp [QueryType.ofString, h1, h2, h3, h4]
  · intro o h
    unfold Operator.ofString at h
    split_ifs at h with h1 h2 h3 h4 h5 h6 h7 <;>
      (injection h with h0; subst h0; simp_all [Operator.value])

/-- Witness for `C5_closed_enums` at concrete out-of-set strings. -/
theorem C5_witness :
    Operator.ofString "===" = none ∧
    mkApplicability (some "object_entity") (some "area") (some "===")
      (some "15 m2") = none ∧
    mkStatement (some "area") (some "===") (some "15 m2")
      (some "requirement") = none ∧
    Entity.ofString "object" = none ∧
    StatementType.ofString "mandatory" = none ∧
    QueryType.ofString "Duplicate" = none :=
  ⟨(((C5_closed_enums "===").1) (by decide)).1,
   (((C5_closed_enums "===").1) (by decide)).2.1 _ _ _,
   (((C5_closed_enums "===").1) (by decide)).2.2 _ _ _,
   (C5_closed_enums "object").2.1 (by decide),
   (C5_closed_enums "mandatory").2.2.1 (by decide),
   (C5_closed_enums "Duplicate").2.2.2.1 (by decide)⟩

/-- Claim C8 (counterexample): the Extractor's output schema admits
`reqs = null` together with a non-null `paragraph` — the coupling stated in
the `paragraph` field description is not enforced by any validator. -/
theorem C8_counterexample :
    (mkExtractedRequirements none (some "6.6.2")).reqs = none ∧
    (mkExtractedRequirements none (some "6.6.2")).paragraph = some "6.6.2" ∧
    (mkExtractedRequirements none (some "6.6.2")).paragraph ≠ none :=
  ⟨rfl, rfl, by decide⟩

/-- Claim C8 (amended): `ExtractedRequirements` stores `reqs` and
`paragraph` exactly as supplied (with `paragraph` defaulting to null when
omitted); the rule "if reqs=null then paragraph is also null" is a
documented instruction to the producer, not a schema-enforced invariant, so
the coupled-null terminal outcome is the producer's responsibility. -/
theorem C8_amended (r : Option (List Requirement)) (p : Option String) :
    (mkExtractedRequirements r p).reqs = r ∧
    (mkExtractedRequirements r p).paragraph = p ∧
    (mkExtractedRequirementsDefault r).paragraph = none :=
  ⟨rfl, rfl, rfl⟩

/-- Claim C9 (counterexample): a `PartiallySpecifiedRequirement` with
`subject_entity` present and `relation = null` passes validation, so
"relation is null exactly when subject_entity is null" fails on the schema. -/
theorem C9_counterexample :
    mkPartiallySpecifiedRequirement (some "doors") (some "classrooms") none none
        (some qstEx) =
      some ⟨"doors", some "classrooms", none, none, qstEx⟩ ∧
    (⟨"doors", some "classrooms", none, none, qstEx⟩ :
        PartiallySpecifiedRequirement).subject_entity ≠ none ∧
    (⟨"doors", some "classrooms", none, none, qstEx⟩ :
        PartiallySpecifiedRequirement).relation = none :=
  ⟨rfl, by decide, rfl⟩

/-- Claim C9 (amended): in every Query Structurer output, `object_entity`
and `statement` are never null — construction rejects their absence — while
`subject_entity`, `relation` and `applicability` may all be null; the
`relation`-null-iff-`subject_entity`-null coupling is only a prompt
instruction, not enforced by the schema. -/
theorem C9_amended :
    (∀ se r a st2, mkPartiallySpecifiedRequirement none se r a st2 = none) ∧
    (∀ oe se r a, mkPartiallySpecifiedRequirement (some oe) se r a none = none) ∧
    (∀ oe st2, mkPartiallySpecifiedRequirement (some oe) none none none (some st2)
      = some ⟨oe, none, none, none, st2⟩) ∧
    (∀ oe se r a st2 p,
      mkPartiallySpecifiedRequirement oe se r a st2 = some p →
      oe = some p.object_entity ∧ st2 = some p.statement) := by
  refine ⟨?_, ?_, fun oe st2 => rfl, ?_⟩
  · intro se r a st2; cases st2 <;> rfl
  · intro oe se r a; rfl
  · intro oe se r a st2 p h
    cases oe with
    | none => cases st2 <;> exact Option.noConfusion h
    | some x =>
      cases st2 with
      | none => exact Option.noConfusion h
      | some y =>
        injection h with h0
        subst h0
        exact ⟨rfl, rfl⟩

/-- Witness for `C9_amended` at a concrete input. -/
theorem C9_amended_witness :
    some "doors" = some (PartiallySpecifiedRequirement.object_entity
      ⟨"doors", none, none, none, qstEx⟩) ∧
    some qstEx = some (PartiallySpecifiedRequirement.statement
      ⟨"doors", none, none, none, qstEx⟩) :=
  C9_amended.2.2.2 (some "doors") none none none (some qstEx)
    ⟨"doors", none, none, none, qstEx⟩ rfl

/-- Claim C10: constructing a `GraphRequirement` modifies, among its fields
and nested records, only the `None` domains of the external references
(each becomes `""`): all scalar fields, `applicability`, `statement`,
`source`, every reference's `document` and every already-string domain
retain exactly the supplied values. -/
theorem C10_frame (rt oe se rel : String) (apps : List Applicability)
    (st : Statement) (refs : List ExternalReference) (src : Source) :
    (mkGraphRequirement rt oe se rel apps st refs src).req_text = rt ∧
    (mkGraphRequirement rt oe se rel apps st refs src).object_entity = oe ∧
    (mkGraphRequirement rt oe se rel apps st refs src).subject_entity = se ∧
    (mkGraphRequirement rt oe se rel apps st refs src).relation = rel ∧
    (mkGraphRequirement rt oe se rel apps st refs src).applicability = apps ∧
    (mkGraphRequirement rt oe se rel apps st refs src).statement = st ∧
    (mkGraphRequirement rt oe se rel apps st refs src).source = src ∧
    (mkGraphRequirement rt oe se rel apps st refs src).external_refs
      = refs.map normalizeRef ∧
    (∀ d s2, normalizeRef ⟨d, some s2⟩ = ⟨d, some s2⟩) ∧
    (∀ d, normalizeRef ⟨d, none⟩ = ⟨d, some ""⟩) :=
  ⟨rfl, rfl, rfl, rfl, rfl, rfl, rfl, rfl, fun _ _ => rfl, fun _ => rfl⟩

/-- Claim C6: the query classification follows the fixed first-match-wins
order — QUESTION whenever a question mark is present regardless of other
content, else CONTRADICTION on contradiction vocabulary, else DUPLICATE on
duplicate vocabulary, else OTHER; in particular the query
"Is this a duplicate requirement?" carries both a question mark and
duplicate vocabulary and is classified QUESTION. -/
theorem C6_classification (q : String) :
    (hasQuestionMark q = true → classifyQuery q = .QUESTION) ∧
    (hasQuestionMark q = false → containsAny q contradictionVocab = true →
      classifyQuery q = .CONTRADICTION) ∧
    (hasQuestionMark q = false → containsAny q contradictionVocab = false →
      containsAny q duplicateVocab = true → classifyQuery q = .DUPLICATE) ∧
    (hasQuestionMark q = false → containsAny q contradictionVocab = false →
      containsAny q duplicateVocab = false → classifyQuery q = .OTHER) ∧
    (hasQuestionMark "Is this a duplicate requirement?" = true ∧
      containsAny "Is this a duplicate requirement?" duplicateVocab = true ∧
      classifyQuery "Is this a duplicate requirement?" = .QUESTION) := by
  refine ⟨?_, ?_, ?_, ?_, by decide, by decide, by decide⟩ <;>
    intros <;> simp [classifyQuery, *]

/-- Witness for `C6_classification` at the spec's concrete query. -/
theorem C6_witness :
    classifyQuery "Is this a duplicate requirement?" = QueryType.QUESTION :=
  (C6_classification "Is this a duplicate requirement?").1 (by decide)

/-- Two leftmost-scan deletions commute with an occurrence-free head. -/
theorem stripPair_append_not_mem (c : Char) (l1 l2 : List Char)
    (h : c ∉ l1) : stripPair c (l1 ++ l2) = l1 ++ stripPair c l2 := by
  induction l1 with
  | nil => simp
  | cons x xs ih =>
    have hx : x ≠ c := by
      intro hxc
      exact h (hxc ▸ List.mem_cons_self x xs)
    have hxs : c ∉ xs := fun hm => h (List.mem_cons_of_mem x hm)
    cases hxl : xs ++ l2 with
    | nil =>
      have h1 : xs = [] := (List.append_eq_nil.mp hxl).1
      have h2 : l2 = [] := (List.append_eq_nil.mp hxl).2
      subst h1
      subst h2
      simp [stripPair]
    | cons y t =>
      have hcond : ¬(x = c ∧ y = c) := fun hc => hx hc.1
      calc stripPair c ((x :: xs) ++ l2)
          = stripPair c (x :: y :: t) := by rw [List.cons_append, hxl]
        _ = x :: stripPair c (y :: t) := by
            simp only [stripPair, if_neg hcond]
        _ = x :: stripPair c (xs ++ l2) := by rw [hxl]
        _ = x :: (xs ++ stripPair c l2) := by rw [ih hxs]
        _ = (x :: xs) ++ stripPair c l2 := by simp

/-- The scan deletes a marker pair at the head. -/
theorem stripPair_pair (c : Char) (l : List Char) :
    stripPair c (c :: c :: l) = stripPair c l := by
  simp [stripPair]

/-- The `$$` pass removes exactly the statement markers. -/
theorem strip_dollar_render (fs : List Frag)
    (h : ∀ f ∈ fs, '$' ∉ f.text.toList ∧ '&' ∉ f.text.toList) :
    stripPair '$' (renderChars fs) = ampChars fs := by
  induction fs with
  | nil => rfl
  | cons f fs ih =>
    have hf := h f (List.mem_cons_self f fs)
    have hfs := fun g hg => h g (List.mem_cons_of_mem f hg)
    have hne : ('$' : Char) ≠ '&' := by decide
    cases f with
    | plain s =>
      have hf1 : '$' ∉ s.toList := hf.1
      show stripPair '$' (s.toList ++ renderChars fs) = s.toList ++ ampChars fs
      rw [stripPair_append_not_mem '$' s.toList (renderChars fs) hf1, ih hfs]
    | entitySpan s =>
      have hf1 : '$' ∉ s.toList := hf.1
      show stripPair '$'
          (('&' :: '&' :: (s.toList ++ ['&', '&'])) ++ renderChars fs)
          = ('&' :: '&' :: (s.toList ++ ['&', '&'])) ++ ampChars fs
      have hf1d : '$' ∉ s.data := hf1
      have hfree : '$' ∉ ('&' :: '&' :: (s.toList ++ ['&', '&'])) := by
        simp [List.mem_cons, List.mem_append, hf1d, hne]
      rw [stripPair_append_not_mem '$'
          ('&' :: '&' :: (s.toList ++ ['&', '&'])) (renderChars fs) hfree,
        ih hfs]
    | stmtSpan s =>
      have hf1 : '$' ∉ s.toList := hf.1
      show stripPair '$'
          (('$' :: '$' :: (s.toList ++ ['$', '$'])) ++ renderChars fs)
          = s.toList ++ ampChars fs
      have heq : ('$' :: '$' :: (s.toList ++ ['$', '$'])) ++ renderChars fs
          = '$' :: '$' :: (s.toList ++ ('$' :: '$' :: renderChars fs)) := by
        simp
      rw [heq, stripPair_pair,
        stripPair_append_not_mem '$' s.toList ('$' :: '$' :: renderChars fs) hf1,
        stripPair_pair, ih hfs]

/-- The `&&` pass removes exactly the entity markers. -/
theorem strip_amp_amp (fs : List Frag)
    (h : ∀ f ∈ fs, '$' ∉ f.text.toList ∧ '&' ∉ f.text.toList) :
    stripPair '&' (ampChars fs) = originalChars fs := by
  induction fs with
  | nil => rfl
  | cons f fs ih =>
    have hf := h f (List.mem_cons_self f fs)
    have hfs := fun g hg => h g (List.mem_cons_of_mem f hg)
    cases f with
    | plain s =>
      have hf2 : '&' ∉ s.toList := hf.2
      show stripPair '&' (s.toList ++ ampChars fs) = s.toList ++ originalChars fs
      rw [stripPair_append_not_mem '&' s.toList (ampChars fs) hf2, ih hfs]
    | entitySpan s =>
      have hf2 : '&' ∉ s.toList := hf.2
      show stripPair '&'
          (('&' :: '&' :: (s.toList ++ ['&', '&'])) ++ ampChars fs)
          = s.toList ++ originalChars fs
      have heq : ('&' :: '&' :: (s.toList ++ ['&', '&'])) ++ ampChars fs
          = '&' :: '&' :: (s.toList ++ ('&' :: '&' :: ampChars fs)) := by
        simp
      rw [heq, stripPair_pair,
        stripPair_append_not_mem '&' s.toList ('&' :: '&' :: ampChars fs) hf2,
        stripPair_pair, ih hfs]
    | stmtSpan s =>
      have hf2 : '&' ∉ s.toList := hf.2
      show stripPair '&' (s.toList ++ ampChars fs) = s.toList ++ originalChars fs
      rw [stripPair_append_not_mem '&' s.toList (ampChars fs) hf2, ih hfs]

/-- Claim C1: for every Formatter output — original text split into
fragments, entity fragments wrapped in "&&" pairs, statement fragments in
"$$" pairs, nothing else changed — stripping both marker vocabularies with
the documented replace chain returns the original text byte-identically. -/
theorem C1_round_trip (fs : List Frag) (h : ∀ f ∈ fs, f.markerFree) :
    stripMarkers (formatText fs) = originalText fs := by
  have h2 : ∀ f ∈ fs, '$' ∉ f.text.toList ∧ '&' ∉ f.text.toList := h
  show String.mk (stripPair '&' (stripPair '$' (renderChars fs)))
      = String.mk (originalChars fs)
  rw [strip_dollar_render fs h2, strip_amp_amp fs h2]

/-- Witness for `C1_round_trip` at the spec's round-trip example. -/
theorem C1_witness :
    (∀ f ∈ fragsEx, f.markerFree) ∧
    formatText fragsEx = "$$Ceiling height$$ $$must be at least$$ 2.7 m" ∧
    originalText fragsEx = "Ceiling height must be at least 2.7 m" ∧
    stripMarkers (formatText fragsEx) = originalText fragsEx :=
  ⟨by decide, by decide, by decide, C1_round_trip fragsEx (by decide)⟩

/-- String concatenation concatenates the character lists. -/
theorem toList_append (a b : String) : (a ++ b).toList = a.toList ++ b.toList := rfl

/-- Occurrence-free segments compose. -/
theorem Passes.append {pat s t : List Char} (hs : Passes pat s)
    (ht : Passes pat t) : Passes pat (s ++ t) := by
  intro b
  rw [List.append_assoc, hs, ht]

/-- A segment not containing the pattern's first character contributes no
occurrence and no straddling occurrence. -/
theorem passes_of_not_mem (c : Char) (pt u : List Char) (h : c ∉ u) :
    Passes (c :: pt) u := by
  induction u with
  | nil => intro b; rfl
  | cons x xs ih =>
    have hx : c ≠ x := by
      intro hcx
      exact h (hcx ▸ List.mem_cons_self x xs)
    have hxs : c ∉ xs := fun hm => h (List.mem_cons_of_mem x hm)
    intro b
    show countSub (c :: pt) (x :: (xs ++ b)) = countSub (c :: pt) b
    have hbeq : (c == x) = false := beq_eq_false_iff_ne.mpr hx
    have hpre : (c :: pt).isPrefixOf (x :: (xs ++ b)) = false := by
      simp [List.isPrefixOf, hbeq]
    simp only [countSub, hpre, cond_false]
    exact ih hxs b

/-- The rendered applicability block contributes no occurrence of a
tag-shaped pattern when the embedded field texts contain no `<`. -/
theorem passes_renderApps (pat : List Char)
    (hA0 : Passes pat A0.toList) (hA1 : Passes pat A1.toList)
    (hA2 : Passes pat A2.toList) (hA3 : Passes pat A3.toList)
    (hsub : Passes pat "subject_entity".toList)
    (hobj : Passes pat "object_entity".toList)
    (hu : ∀ u : String, '<' ∉ u.toList → Passes pat u.toList)
    (as2 : List Applicability)
    (h : ∀ a ∈ as2, '<' ∉ a.property.toList ∧ '<' ∉ a.value.toList) :
    Passes pat (renderApplicabilityList as2).toList := by
  induction as2 with
  | nil => intro b; rfl
  | cons a as2 ih =>
    have ha := h a (List.mem_cons_self a as2)
    have has := fun g hg => h g (List.mem_cons_of_mem a hg)
    have hEnt : Passes pat a.entity.value.toList := by
      cases a.entity
      · exact hsub
      · exact hobj
    have happ : Passes pat (renderApplicability a).toList := by
      have heq : (renderApplicability a).toList
          = A0.toList ++ (a.entity.value.toList ++ (A1.toList ++
            (a.property.toList ++ (A2.toList ++ (a.value.toList ++ A3.toList))))) := by
        simp [renderApplicability, toList_append, List.append_assoc]
      rw [heq]
      exact hA0.append (hEnt.append (hA1.append ((hu a.property ha.1).append
        (hA2.append ((hu a.value ha.2).append hA3)))))
    have hlist : (renderApplicabilityList (a :: as2)).toList
        = (renderApplicability a).toList ++ (renderApplicabilityList as2).toList := rfl
    rw [hlist]
    exact happ.append (ih has)

/-- The rendered statement constraint contributes no occurrence of a
tag-shaped pattern when the embedded value contains no `<`. -/
theorem passes_renderOpValue (pat : List Char)
    (hGT : Passes pat RH_GT.toList) (hGE : Passes pat RH_GE.toList)
    (hLT : Passes pat RH_LT.toList) (hLE : Passes pat RH_LE.toList)
    (hRT : Passes pat RT_R.toList) (hS0 : Passes pat SV0.toList)
    (hS1 : Passes pat SV1.toList)
    (hu : ∀ u : String, '<' ∉ u.toList → Passes pat u.toList)
    (o : Operator) (v : String) (hv : '<' ∉ v.toList) :
    Passes pat (renderOpValue o v).toList := by
  have hvp := hu v hv
  cases o with
  | EQUAL =>
    have heq : (renderOpValue .EQUAL v).toList
        = SV0.toList ++ (v.toList ++ SV1.toList) := by
      simp [renderOpValue, toList_append, List.append_assoc]
    rw [heq]
    exact hS0.append (hvp.append hS1)
  | NOT_EQUAL =>
    have heq : (renderOpValue .NOT_EQUAL v).toList
        = SV0.toList ++ (v.toList ++ SV1.toList) := by
      simp [renderOpValue, toList_append, List.append_assoc]
    rw [heq]
    exact hS0.append (hvp.append hS1)
  | BELONGS_TO =>
    have heq : (renderOpValue .BELONGS_TO v).toList
        = SV0.toList ++ (v.toList ++ SV1.toList) := by
      simp [renderOpValue, toList_append, List.append_assoc]
    rw [heq]
    exact hS0.append (hvp.append hS1)
  | GREATER_THAN =>
    have heq : (renderOpValue .GREATER_THAN v).toList
        = RH_GT.toList ++ (v.toList ++ RT_R.toList) := by
      simp [renderOpValue, toList_append, List.append_assoc]
    rw [heq]
    exact hGT.append (hvp.append hRT)
  | GREATER_EQUAL =>
    have heq : (renderOpValue .GREATER_EQUAL v).toList
        = RH_GE.toList ++ (v.toList ++ RT_R.toList) := by
      simp [renderOpValue, toList_append, List.append_assoc]
    rw [heq]
    exact hGE.append (hvp.append hRT)
  | LESS_THAN =>
    have heq : (renderOpValue .LESS_THAN v).toList
        = RH_LT.toList ++ (v.toList ++ RT_R.toList) := by
      simp [renderOpValue, toList_append, List.append_assoc]
    rw [heq]
    exact hLT.append (hvp.append hRT)
  | LESS_EQUAL =>
    have heq : (renderOpValue .LESS_EQUAL v).toList
        = RH_LE.toList ++ (v.toList ++ RT_R.toList) := by
      simp [renderOpValue, toList_append, List.append_assoc]
    rw [heq]
    exact hLE.append (hvp.append hRT)

/-- The rendered cardinality attribute contributes no tag occurrence. -/
theorem passes_cardinality (pat : List Char)
    (hreq : Passes pat "required".toList) (hopt : Passes pat "optional".toList)
    (t : StatementType) : Passes pat (cardinalityAttr t).toList := by
  cases t
  · exact hreq
  · exact hopt

/-- Claim C7: the Interchange Serializer returns the empty string exactly
when the object entity or the statement property has no valid mapping into
the target vocabulary; every non-empty output contains exactly one info
block and exactly one specification block (assuming the embedded field
texts, being vocabulary terms and plain values, contain no `<`). -/
theorem C7_serializer (vocab : String → Option String) (gr : GraphRequirement) :
    ((vocab gr.object_entity = none ∨ vocab gr.statement.property = none) →
      serializeIDS vocab gr = "") ∧
    (∀ cls prop, vocab gr.object_entity = some cls →
      vocab gr.statement.property = some prop →
      '<' ∉ gr.req_text.toList → '<' ∉ cls.toList → '<' ∉ prop.toList →
      '<' ∉ gr.statement.value.toList →
      (∀ a ∈ gr.applicability, '<' ∉ a.property.toList ∧ '<' ∉ a.value.toList) →
      serializeIDS vocab gr ≠ "" ∧
      countSub infoChars (serializeIDS vocab gr).toList = 1 ∧
      countSub specChars (serializeIDS vocab gr).toList = 1) := by
  constructor
  · intro h
    rcases h with h | h
    · simp [serializeIDS, h]
    · cases h1 : vocab gr.object_entity <;> simp [serializeIDS, h, h1]
  · intro cls prop h1 h2 hrt hcls hprop hval happs
    have hdoc : serializeIDS vocab gr
        = T0 ++ gr.req_text ++ T1 ++ cls ++ T2 ++
          renderApplicabilityList gr.applicability ++ T3 ++
          cardinalityAttr gr.statement.type ++ T4 ++ prop ++ T5 ++
          renderOpValue gr.statement.operator gr.statement.value ++ T6 := by
      simp [serializeIDS, h1, h2]
    have hchars : (serializeIDS vocab gr).toList
        = T0.toList ++ (gr.req_text.toList ++ (T1.toList ++ (cls.toList ++
          (T2.toList ++ ((renderApplicabilityList gr.applicability).toList ++
          (T3.toList ++ ((cardinalityAttr gr.statement.type).toList ++
          (T4.toList ++ (prop.toList ++ (T5.toList ++
          ((renderOpValue gr.statement.operator gr.statement.value).toList ++
          T6.toList))))))))))) := by
      rw [hdoc]
      simp [toList_append, List.append_assoc]
    have huI : ∀ u : String, '<' ∉ u.toList → Passes infoChars u.toList :=
      fun u hu2 => passes_of_not_mem '<' ("ids:info>".toList) u.toList hu2
    have huS : ∀ u : String, '<' ∉ u.toList → Passes specChars u.toList :=
      fun u hu2 => passes_of_not_mem '<' ("ids:specification ".toList) u.toList hu2
    have rAppsI : Passes infoChars
        (renderApplicabilityList gr.applicability).toList :=
      passes_renderApps infoChars (fun c0 => rfl) (fun c1 => rfl)
        (fun c2 => rfl) (fun c3 => rfl) (fun c4 => rfl) (fun c5 => rfl)
        huI gr.applicability happs
    have rAppsS : Passes specChars
        (renderApplicabilityList gr.applicability).toList :=
      passes_renderApps specChars (fun d0 => rfl) (fun d1 => rfl)
        (fun d2 => rfl) (fun d3 => rfl) (fun d4 => rfl) (fun d5 => rfl)
        huS gr.applicability happs
    have rOpI : Passes infoChars
        (renderOpValue gr.statement.operator gr.statement.value).toList :=
      passes_renderOpValue infoChars (fun e0 => rfl) (fun e1 => rfl)
        (fun e2 => rfl) (fun e3 => rfl) (fun e4 => rfl) (fun e5 => rfl)
        (fun e6 => rfl) huI gr.statement.operator gr.statement.value hval
    have rOpS : Passes specChars
        (renderOpValue gr.statement.operator gr.statement.value).toList :=
      passes_renderOpValue specChars (fun g0 => rfl) (fun g1 => rfl)
        (fun g2 => rfl) (fun g3 => rfl) (fun g4 => rfl) (fun g5 => rfl)
        (fun g6 => rfl) huS gr.statement.operator gr.statement.value hval
    have rCardI : Passes infoChars (cardinalityAttr gr.statement.type).toList :=
      passes_cardinality infoChars (fun k0 => rfl) (fun k1 => rfl)
        gr.statement.type
    have rCardS : Passes specChars (cardinalityAttr gr.statement.type).toList :=
      passes_cardinality specChars (fun k2 => rfl) (fun k3 => rfl)
        gr.statement.type
    have hI : countSub infoChars (serializeIDS vocab gr).toList = 1 := by
      rw [hchars,
        (show PassesOne infoChars T0.toList from fun _ => rfl) _,
        huI gr.req_text hrt _,
        (show Passes infoChars T1.toList from fun _ => rfl) _,
        huI cls hcls _,
        (show Passes infoChars T2.toList from fun _ => rfl) _,
        rAppsI _,
        (show Passes infoChars T3.toList from fun _ => rfl) _,
        rCardI _,
        (show Passes infoChars T4.toList from fun _ => rfl) _,
        huI prop hprop _,
        (show Passes infoChars T5.toList from fun _ => rfl) _,
        rOpI _,
        (show countSub infoChars T6.toList = 0 from rfl)]
    have hSp : countSub specChars (serializeIDS vocab gr).toList = 1 := by
      rw [hchars,
        (show Passes specChars T0.toList from fun _ => rfl) _,
        huS gr.req_text hrt _,
        (show PassesOne specChars T1.toList from fun _ => rfl) _,
        huS cls hcls _,
        (show Passes specChars T2.toList from fun _ => rfl) _,
        rAppsS _,
        (show Passes specChars T3.toList from fun _ => rfl) _,
        rCardS _,
        (show Passes specChars T4.toList from fun _ => rfl) _,
        huS prop hprop _,
        (show Passes specChars T5.toList from fun _ => rfl) _,
        rOpS _,
        (show countSub specChars T6.toList = 0 from rfl)]
    refine ⟨?_, hI, hSp⟩
    intro h0
    rw [h0] at hI
    exact absurd hI (by decide)

/-- Witness for `C7_serializer` at a concrete vocabulary and requirement. -/
theorem C7_witness :
    vocabEx grEx.object_entity = some "IfcWindow" ∧
    vocabEx grExBad.object_entity = none ∧
    serializeIDS vocabEx grExBad = "" ∧
    serializeIDS vocabEx grEx ≠ "" ∧
    countSub infoChars (serializeIDS vocabEx grEx).toList = 1 ∧
    countSub specChars (serializeIDS vocabEx grEx).toList = 1 := by
  have h := (C7_serializer vocabEx grEx).2 "IfcWindow" "IsExternal" rfl rfl
    (by decide) (by decide) (by decide) (by decide) (by decide)
  exact ⟨rfl, rfl, (C7_serializer vocabEx grExBad).1 (Or.inl rfl),
    h.1, h.2.1, h.2.2⟩

end Regs
